import Mathlib

/-!
Shallow embedding of the MindfulConnect appointment coordinator.

The repository ships two iterations of the same storage layer:
`src/services/storageService.ts` (the module the components import) and
`src/unnamed/part_007` (an earlier revision of the same service, and the only
place where the transfer handshake and the gate-decision statuses are
implemented in full).  Both talk to a `supabase` store holding three tables:
`appointments`, `availability` (one row per (counselor, date), carrying a JSON
list of `{id, time, isBooked}` slots) and `notifications`.  We model the store
as an explicit record `DB` and every service function as a pure state
transformer on it, following the supabase (primary) code path with the remote
calls replaced by reads/writes of `DB`.

Namespace `StorageService` embeds `src/services/storageService.ts`;
namespace `SupabaseStore` embeds `src/unnamed/part_007`.
-/

/-- `AppointmentStatus` from `src/types.ts` (lines 7-14), which declares
`PENDING | CONFIRMED | CANCELLED | COMPLETED | ACCEPTED | DENIED`; the
iteration in `src/unnamed/part_000` replaces the two gate values by
`VERIFYING`.  The union of the declared values is used so both service
iterations can be embedded against one type. -/
inductive AppointmentStatus where
  | PENDING
  | CONFIRMED
  | CANCELLED
  | COMPLETED
  | ACCEPTED
  | DENIED
  | VERIFYING
deriving DecidableEq, Repr

/-- `TimeSlot` from `src/types.ts`. -/
structure TimeSlot where
  id : String
  time : String
  isBooked : Bool
deriving DecidableEq, Repr

/-- One row of the `availability` table: `(counselor_id, date, slots)`,
unique on `(counselor_id, date)` (schema §9). -/
structure AvailRow where
  counselorId : String
  date : String
  slots : List TimeSlot
deriving DecidableEq, Repr

/-- `Appointment` from `src/types.ts`.  The `section` field is renamed
`sect` (`section` is a Lean keyword).  Row ids are modelled as `Nat`. -/
structure Appointment where
  id : Nat
  studentId : String
  studentIdNumber : String
  studentName : String
  sect : String
  parentPhoneNumber : String
  hasConsent : Bool
  counselorId : String
  counselorName : String
  date : String
  time : String
  reason : String
  description : String
  status : AppointmentStatus
  createdAt : String
  isAtGate : Bool
  transferRequestToId : Option String
  transferRequestToName : Option String
  transferCounselorAccepted : Option Bool
  transferStudentAccepted : Option Bool
  rescheduleProposedDate : Option String
  rescheduleProposedTime : Option String
deriving DecidableEq, Repr

/-- One row of the `notifications` table (append-only; `user_id`,
`message`, `is_read`). -/
structure SystemNotification where
  userId : String
  message : String
  isRead : Bool
deriving DecidableEq, Repr

/-- The supabase store: the three tables the coordinator mutates, plus the
id the next inserted appointment row receives (primary keys are generated
by the store). -/
structure DB where
  appointments : List Appointment
  availability : List AvailRow
  notifications : List SystemNotification
  nextId : Nat
deriving DecidableEq, Repr

/-- `select('*').eq('id', id).single()` on the `appointments` table. -/
def findAppointment (db : DB) (id : Nat) : Option Appointment :=
  db.appointments.find? (fun a => a.id == id)

/-- `update(...).eq('id', id)` on the `appointments` table: rewrite every
row whose id matches. -/
def updateAppointmentRow (db : DB) (id : Nat) (f : Appointment → Appointment) : DB :=
  { db with appointments := db.appointments.map (fun a => if a.id == id then f a else a) }

/-- `createNotification` (both service iterations): insert a fresh unread
row into the `notifications` table. -/
def createNotification (db : DB) (userId message : String) : DB :=
  { db with notifications := db.notifications ++ [{ userId := userId, message := message, isRead := false }] }

/-- `updateSlotStatus` (identical in `src/services/storageService.ts`
lines 529-548 and `src/unnamed/part_007` lines 235-241): fetch the
`availability` row for `(counselorId, date)` (`maybeSingle`); if present,
map over its slots flipping `isBooked` on those whose `time` matches, and
write the mapped list back with `update(...).eq(...).eq(...)`; otherwise do
nothing. -/
def updateSlotStatus (db : DB) (counselorId date time : String) (isBooked : Bool) : DB :=
  match db.availability.find? (fun r => r.counselorId == counselorId && r.date == date) with
  | none => db
  | some existing =>
      let updatedSlots := existing.slots.map
        (fun slot => if slot.time == time then { slot with isBooked := isBooked } else slot)
      let avail := db.availability.map
        (fun r => if r.counselorId == counselorId && r.date == date
                  then { r with slots := updatedSlots } else r)
      { db with availability := avail }

/-- An SQL row filter on a nullable column matches no row when the value is
null; used where the source passes a possibly-null proposed date/time to
`updateSlotStatus`. -/
def updateSlotStatusOpt (db : DB) (counselorId : String) (date time : Option String)
    (isBooked : Bool) : DB :=
  match date, time with
  | some d, some t => updateSlotStatus db counselorId d t isBooked
  | _, _ => db

/-- Read a slot of the ledger: the `(counselorId, date)` row's slot whose
`time` matches. -/
def lookupSlot (avail : List AvailRow) (counselorId date time : String) : Option TimeSlot :=
  (avail.find? (fun r => r.counselorId == counselorId && r.date == date)).bind
    (fun r => r.slots.find? (fun s => s.time == time))

/-- Whether the ledger records `(counselorId, date, time)` as booked. -/
def isBooked (avail : List AvailRow) (counselorId date time : String) : Bool :=
  match lookupSlot avail counselorId date time with
  | some s => s.isBooked
  | none => false

/-- `MIN_INTERVAL_MINUTES` (`src/services/storageService.ts` line 5). -/
def MIN_INTERVAL_MINUTES : Nat := 80

/-- `String.split(sep)` of JavaScript, on the character list of the
string: maximal runs between occurrences of the separator. -/
def splitOnChar (sep : Char) : List Char → List (List Char)
  | [] => [[]]
  | c :: cs =>
    let rest := splitOnChar sep cs
    if c = sep then [] :: rest
    else
      match rest with
      | [] => [[c]]
      | r :: rs => (c :: r) :: rs

/-- `Number(...)` of JavaScript on the digit strings produced by splitting
a well-formed `HH:MM` label: base-10 value of the digit run. -/
def charsToNat (cs : List Char) : Nat :=
  cs.foldl (fun n c => n * 10 + (c.toNat - Char.toNat '0')) 0

/-- `timeToMinutes` (`src/services/storageService.ts` lines 42-45):
`time.split(':').map(Number)` and `hours * 60 + minutes`. -/
def timeToMinutes (time : String) : Nat :=
  let parts := (splitOnChar ':' time.toList).map charsToNat
  parts.getD 0 0 * 60 + parts.getD 1 0

/-- `hasIntervalConflict` (`src/services/storageService.ts` lines 47-53):
some existing time lies strictly within 80 minutes of the new time,
measured as absolute difference of minutes-since-midnight. -/
def hasIntervalConflict (newTime : String) (existingTimes : List String) : Bool :=
  let newMinutes := timeToMinutes newTime
  existingTimes.any (fun existingTime =>
    let existingMinutes := timeToMinutes existingTime
    ((newMinutes : Int) - (existingMinutes : Int)).natAbs < MIN_INTERVAL_MINUTES)

namespace StorageService

/-- The message `updateAppointmentStatus` in `src/services/storageService.ts`
(lines 296-304) sends the student for each status (empty `msg` means no
notification). -/
def statusMessage (status : AppointmentStatus) (date counselorName : String) : Option String :=
  match status with
  | .CONFIRMED => some ("Your appointment on " ++ date ++ " has been CONFIRMED by Counselor " ++ counselorName ++ ".")
  | .CANCELLED => some ("Your appointment on " ++ date ++ " was CANCELLED.")
  | .COMPLETED => some ("Your session on " ++ date ++ " has been marked COMPLETED.")
  | _ => none

/-- The duplicate-booking predicate of `saveAppointment`
(`src/services/storageService.ts` lines 190-196): an existing row of the
same student at the exact same `(date, time)` whose status is `PENDING` or
`CONFIRMED`. -/
def exactSlotConflict (appointment a : Appointment) : Bool :=
  a.studentId == appointment.studentId && a.date == appointment.date &&
    a.time == appointment.time &&
    (a.status == .PENDING || a.status == .CONFIRMED)

/-- `saveAppointment` (`src/services/storageService.ts` lines 188-262):
query conflicting rows; on conflict return `null` with no write; otherwise
insert the payload (columns absent from the payload take their schema
defaults: gate flag false, transfer-accepted flags false, nullable transfer
and reschedule columns null), book the slot, notify the counselor, and
return the saved row. -/
def saveAppointment (db : DB) (appointment : Appointment) : Option Appointment × DB :=
  let studentConflicts := db.appointments.filter (exactSlotConflict appointment)
  if studentConflicts.length > 0 then
    (none, db)
  else
    let inserted : Appointment := { appointment with
      id := db.nextId
      isAtGate := false
      transferRequestToId := none
      transferRequestToName := none
      transferCounselorAccepted := some false
      transferStudentAccepted := some false
      rescheduleProposedDate := none
      rescheduleProposedTime := none }
    let db1 : DB := { db with appointments := db.appointments ++ [inserted], nextId := db.nextId + 1 }
    let db2 := updateSlotStatus db1 appointment.counselorId appointment.date appointment.time true
    let db3 := createNotification db2 appointment.counselorId
      ("New Appointment Request: " ++ appointment.studentName ++ " for " ++
        appointment.date ++ " at " ++ appointment.time)
    (some inserted, db3)

/-- `updateAppointmentStatus` (`src/services/storageService.ts` lines
264-306): read the row; if cancelling, free its slot; write the new status;
then notify the student with the per-status message. -/
def updateAppointmentStatus (db : DB) (id : Nat) (status : AppointmentStatus) : DB :=
  match findAppointment db id with
  | none => db
  | some appt =>
    let db1 := if status == .CANCELLED
               then updateSlotStatus db appt.counselorId appt.date appt.time false
               else db
    let db2 := updateAppointmentRow db1 id (fun a => { a with status := status })
    match statusMessage status appt.date appt.counselorName with
    | some msg => createNotification db2 appt.studentId msg
    | none => db2

/-- `studentRespondToReschedule` (`src/services/storageService.ts` lines
351-399).  Accept: free the old slot, book the proposed one, copy the
proposed fields into the live date/time, clear both proposal fields, set
status `CONFIRMED`, notify the counselor.  Decline: free the old slot, set
status `CANCELLED`, clear both proposal fields, notify the counselor. -/
def studentRespondToReschedule (db : DB) (appointmentId : Nat) (accept : Bool) : Bool × DB :=
  match findAppointment db appointmentId with
  | none => (false, db)
  | some appt =>
    if accept then
      let db1 := updateSlotStatus db appt.counselorId appt.date appt.time false
      let db2 := updateSlotStatusOpt db1 appt.counselorId
        appt.rescheduleProposedDate appt.rescheduleProposedTime true
      let db3 := updateAppointmentRow db2 appointmentId (fun a => { a with
        date := appt.rescheduleProposedDate.getD ""
        time := appt.rescheduleProposedTime.getD ""
        rescheduleProposedDate := none
        rescheduleProposedTime := none
        status := .CONFIRMED })
      let db4 := createNotification db3 appt.counselorId
        ("Student " ++ appt.studentName ++ " approved the reschedule.")
      (true, db4)
    else
      let db1 := updateSlotStatus db appt.counselorId appt.date appt.time false
      let db2 := updateAppointmentRow db1 appointmentId (fun a => { a with
        status := .CANCELLED
        rescheduleProposedDate := none
        rescheduleProposedTime := none })
      let db3 := createNotification db2 appt.counselorId
        ("Student " ++ appt.studentName ++ " declined. Cancelled.")
      (true, db3)

end StorageService

/-- The `{ success, message }` result of `initiateTransfer`. -/
structure TransferResult where
  success : Bool
  message : String
deriving DecidableEq, Repr

namespace SupabaseStore

/-- The message `updateAppointmentStatus` in `src/unnamed/part_007`
(lines 67-76) sends the student for each status. -/
def statusMessage (status : AppointmentStatus) (date : String) : Option String :=
  match status with
  | .CONFIRMED => some ("Your appointment on " ++ date ++ " has been CONFIRMED.")
  | .CANCELLED => some ("Your appointment on " ++ date ++ " was CANCELLED.")
  | .COMPLETED => some ("Your session on " ++ date ++ " has been marked COMPLETED.")
  | .ACCEPTED => some "Gate Entry: Counselor has APPROVED your entry."
  | .DENIED => some "Gate Entry: Counselor has DENIED your entry request."
  | _ => none

/-- `requestGateVerification` (`src/unnamed/part_007` lines 44-50): set
`is_at_gate` on the row. -/
def requestGateVerification (db : DB) (appointmentId : Nat) : Bool × DB :=
  (true, updateAppointmentRow db appointmentId (fun a => { a with isAtGate := true }))

/-- `updateAppointmentStatus` (`src/unnamed/part_007` lines 52-77): read
the row; build the update (an `ACCEPTED`/`DENIED` gate decision also clears
`is_at_gate`); if cancelling, free the slot; apply the update; then send
the student the per-status message.  The function receives no clock and
performs no time-window check. -/
def updateAppointmentStatus (db : DB) (id : Nat) (status : AppointmentStatus) : DB :=
  let appt := findAppointment db id
  let clearGate := status == .ACCEPTED || status == .DENIED
  let db1 := match appt with
    | some a => if status == .CANCELLED
                then updateSlotStatus db a.counselorId a.date a.time false
                else db
    | none => db
  let db2 := updateAppointmentRow db1 id (fun a =>
    if clearGate then { a with status := status, isAtGate := false }
    else { a with status := status })
  match appt with
  | none => db2
  | some a =>
    match statusMessage status a.date with
    | some msg => createNotification db2 a.studentId msg
    | none => db2

/-- `respondToTransfer` (`src/unnamed/part_007` lines 142-164): on accept,
record the counselor's acceptance; if the student had already accepted
(read before the update), finalize: free the slot under the original
counselor, book it under the receiving counselor, rewrite
`counselor_id`/`counselor_name`, null out the four transfer columns and set
status `CONFIRMED`.  On decline, null out the transfer target columns. -/
def respondToTransfer (db : DB) (appointmentId : Nat) (accept : Bool)
    (receivingCounselorId receivingCounselorName : String) : Bool × DB :=
  match findAppointment db appointmentId with
  | none => (false, db)
  | some appt =>
    if accept then
      let db1 := updateAppointmentRow db appointmentId
        (fun a => { a with transferCounselorAccepted := some true })
      if appt.transferStudentAccepted == some true then
        let db2 := updateSlotStatus db1 appt.counselorId appt.date appt.time false
        let db3 := updateSlotStatus db2 receivingCounselorId appt.date appt.time true
        let db4 := updateAppointmentRow db3 appointmentId (fun a => { a with
          counselorId := receivingCounselorId
          counselorName := receivingCounselorName
          transferRequestToId := none
          transferRequestToName := none
          transferCounselorAccepted := none
          transferStudentAccepted := none
          status := .CONFIRMED })
        (true, db4)
      else
        (true, db1)
    else
      (true, updateAppointmentRow db appointmentId (fun a => { a with
        transferRequestToId := none
        transferRequestToName := none }))

/-- `studentRespondToTransfer` (`src/unnamed/part_007` lines 166-173): on
accept, record the student's acceptance and return — nothing else is read
or written; on decline, null out the transfer target columns. -/
def studentRespondToTransfer (db : DB) (appointmentId : Nat) (accept : Bool) : Bool × DB :=
  if accept then
    (true, updateAppointmentRow db appointmentId
      (fun a => { a with transferStudentAccepted := some true }))
  else
    (true, updateAppointmentRow db appointmentId (fun a => { a with
      transferRequestToId := none
      transferRequestToName := none }))

/-- `initiateTransfer` (`src/unnamed/part_007` lines 204-212): set the
transfer columns on the row and report success — no conflict check of any
kind is run. -/
def initiateTransfer (db : DB) (appointmentId : Nat)
    (toCounselorId toCounselorName : String) : TransferResult × DB :=
  let db1 := updateAppointmentRow db appointmentId (fun a => { a with
    transferRequestToId := some toCounselorId
    transferRequestToName := some toCounselorName
    transferCounselorAccepted := some false
    transferStudentAccepted := some false })
  ({ success := true, message := "Transfer request sent." }, db1)

end SupabaseStore

/-! ### Basic lemmas about the store primitives -/

theorem find?_map_of_preserve {α : Type} (f : α → α) (q : α → Bool)
    (hf : ∀ a, q (f a) = q a) (l : List α) :
    (l.map f).find? q = (l.find? q).map f := by
  rw [List.find?_map]
  have hq : (q ∘ f) = q := by
    funext a
    simp [Function.comp, hf]
  rw [hq]

theorem updateAppointmentRow_availability (db : DB) (id : Nat) (f : Appointment → Appointment) :
    (updateAppointmentRow db id f).availability = db.availability := rfl

theorem updateAppointmentRow_notifications (db : DB) (id : Nat) (f : Appointment → Appointment) :
    (updateAppointmentRow db id f).notifications = db.notifications := rfl

theorem createNotification_appointments (db : DB) (u m : String) :
    (createNotification db u m).appointments = db.appointments := rfl

theorem createNotification_availability (db : DB) (u m : String) :
    (createNotification db u m).availability = db.availability := rfl

theorem updateSlotStatus_appointments (db : DB) (c d t : String) (b : Bool) :
    (updateSlotStatus db c d t b).appointments = db.appointments := by
  unfold updateSlotStatus
  cases h : db.availability.find? (fun r => r.counselorId == c && r.date == d) <;> simp

theorem updateSlotStatus_notifications (db : DB) (c d t : String) (b : Bool) :
    (updateSlotStatus db c d t b).notifications = db.notifications := by
  unfold updateSlotStatus
  cases h : db.availability.find? (fun r => r.counselorId == c && r.date == d) <;> simp

theorem findAppointment_updateAppointmentRow (db : DB) (id id' : Nat)
    (f : Appointment → Appointment) (hf : ∀ a, (f a).id = a.id) :
    findAppointment (updateAppointmentRow db id f) id' =
      (findAppointment db id').map (fun a => if a.id == id then f a else a) := by
  unfold findAppointment updateAppointmentRow
  exact find?_map_of_preserve _ _ (fun a => by by_cases h : a.id == id <;> simp [h, hf]) _

theorem findAppointment_updateRow_self (db : DB) (id : Nat)
    {f : Appointment → Appointment}
    (appt : Appointment) (h : findAppointment db id = some appt)
    (hf : ∀ a, (f a).id = a.id) :
    findAppointment (updateAppointmentRow db id f) id = some (f appt) := by
  rw [findAppointment_updateAppointmentRow db id id f hf, h]
  have h' : db.appointments.find? (fun a => a.id == id) = some appt := h
  have hid := @List.find?_some _ _ _ _ h'
  simp only [] at hid
  rw [beq_iff_eq] at hid
  simp [hid]

theorem find?_row_map (c d : String) (updatedSlots : List TimeSlot) (c' d' : String)
    (l : List AvailRow) :
    (l.map (fun r => if r.counselorId == c && r.date == d
          then { r with slots := updatedSlots } else r)).find?
        (fun r => r.counselorId == c' && r.date == d') =
      (l.find? (fun r => r.counselorId == c' && r.date == d')).map
        (fun r => if r.counselorId == c && r.date == d
          then { r with slots := updatedSlots } else r) :=
  find?_map_of_preserve _ _
    (fun r => by by_cases hp : (r.counselorId == c && r.date == d) = true <;> simp [hp]) l

theorem find?_slot_map (t : String) (b : Bool) (t' : String) (l : List TimeSlot) :
    (l.map (fun s => if s.time == t then { s with isBooked := b } else s)).find?
        (fun s => s.time == t') =
      (l.find? (fun s => s.time == t')).map
        (fun s => if s.time == t then { s with isBooked := b } else s) :=
  find?_map_of_preserve _ _
    (fun s => by by_cases hp : (s.time == t) = true <;> simp [hp]) l

/-- Effect of `updateSlotStatus` on an arbitrary ledger read: the read slot
is unchanged unless it sits at the updated `(counselor, date)` key and its
time matches, in which case only its `isBooked` flag is rewritten. -/
theorem lookupSlot_updateSlotStatus (db : DB) (c d t : String) (b : Bool) (c' d' t' : String) :
    lookupSlot (updateSlotStatus db c d t b).availability c' d' t' =
      (lookupSlot db.availability c' d' t').map
        (fun s => if c' = c ∧ d' = d ∧ s.time = t then { s with isBooked := b } else s) := by
  unfold updateSlotStatus
  cases hfind : db.availability.find? (fun r => r.counselorId == c && r.date == d) with
  | none =>
    by_cases hcd : c' = c ∧ d' = d
    · obtain ⟨rfl, rfl⟩ := hcd
      unfold lookupSlot
      rw [hfind]
      rfl
    · cases hl : lookupSlot db.availability c' d' t' with
      | none => simp [hl]
      | some s =>
        have hns : ¬(c' = c ∧ d' = d ∧ s.time = t) := fun hx => hcd ⟨hx.1, hx.2.1⟩
        simp [hl, hns]
  | some existing =>
    dsimp only
    unfold lookupSlot
    rw [find?_row_map]
    cases hq : db.availability.find? (fun r => r.counselorId == c' && r.date == d') with
    | none => simp
    | some r0 =>
      have hq0 := @List.find?_some _ _ _ _ hq
      simp only [] at hq0
      rw [Bool.and_eq_true, beq_iff_eq, beq_iff_eq] at hq0
      obtain ⟨h0c, h0d⟩ := hq0
      by_cases hcd : c' = c ∧ d' = d
      · obtain ⟨rfl, rfl⟩ := hcd
        have hr0 : r0 = existing := Option.some.inj (hq.symm.trans hfind)
        subst hr0
        have hp : (r0.counselorId == c' && r0.date == d') = true := by
          rw [Bool.and_eq_true, beq_iff_eq, beq_iff_eq]
          exact ⟨h0c, h0d⟩
        simp only [Option.map_some', hp, if_true, Option.some_bind]
        rw [show ∀ sl, ({ r0 with slots := sl } : AvailRow).slots = sl from fun _ => rfl]
        rw [find?_slot_map]
        cases hs : r0.slots.find? (fun s => s.time == t') with
        | none => simp
        | some s =>
          have hst := @List.find?_some _ _ _ _ hs
          simp only [] at hst
          rw [beq_iff_eq] at hst
          by_cases hsth : s.time = t
          · simp [hsth]
          · have hbeq : (s.time == t) = false := by
              rw [beq_eq_false_iff_ne]
              exact hsth
            simp [hbeq, hsth]
      · have hp : (r0.counselorId == c && r0.date == d) = false := by
          by_cases hpt : (r0.counselorId == c && r0.date == d) = true
          · rw [Bool.and_eq_true, beq_iff_eq, beq_iff_eq] at hpt
            exact absurd ⟨h0c ▸ hpt.1, h0d ▸ hpt.2⟩ hcd
          · rw [Bool.not_eq_true] at hpt
            exact hpt
        simp only [Option.map_some', hp, if_false, Bool.false_eq_true, Option.some_bind]
        cases hs : r0.slots.find? (fun s => s.time == t') with
        | none => simp [hs]
        | some s =>
          have hns : ¬(c' = c ∧ d' = d ∧ s.time = t) := fun hx => hcd ⟨hx.1, hx.2.1⟩
          simp [hs, hns]

theorem lookupSlot_time_eq {avail : List AvailRow} {c d t : String} {s : TimeSlot}
    (h : lookupSlot avail c d t = some s) : s.time = t := by
  unfold lookupSlot at h
  cases hr : avail.find? (fun r => r.counselorId == c && r.date == d) with
  | none =>
    rw [hr] at h
    simp at h
  | some r =>
    rw [hr, Option.some_bind] at h
    have hst := @List.find?_some _ _ _ _ h
    simp only [] at hst
    rwa [beq_iff_eq] at hst

theorem isBooked_updateSlotStatus_self (db : DB) (c d t : String) (b : Bool) :
    isBooked (updateSlotStatus db c d t b).availability c d t =
      ((lookupSlot db.availability c d t).isSome && b) := by
  unfold isBooked
  rw [lookupSlot_updateSlotStatus]
  cases hl : lookupSlot db.availability c d t with
  | none => simp
  | some s =>
    have hst := lookupSlot_time_eq hl
    simp [hst]

theorem isBooked_updateSlotStatus_free (db : DB) (c d t : String) :
    isBooked (updateSlotStatus db c d t false).availability c d t = false := by
  rw [isBooked_updateSlotStatus_self]
  simp

theorem isBooked_updateSlotStatus_book (db : DB) (c d t : String)
    (h : (lookupSlot db.availability c d t).isSome = true) :
    isBooked (updateSlotStatus db c d t true).availability c d t = true := by
  rw [isBooked_updateSlotStatus_self]
  simp [h]

theorem isBooked_updateSlotStatus_other (db : DB) (c d t : String) (b : Bool)
    (c' d' t' : String) (h : ¬(c' = c ∧ d' = d ∧ t' = t)) :
    isBooked (updateSlotStatus db c d t b).availability c' d' t' =
      isBooked db.availability c' d' t' := by
  unfold isBooked
  rw [lookupSlot_updateSlotStatus]
  cases hl : lookupSlot db.availability c' d' t' with
  | none => rfl
  | some s =>
    have hst := lookupSlot_time_eq hl
    have hns : ¬(c' = c ∧ d' = d ∧ s.time = t) := fun hx => h ⟨hx.1, hx.2.1, hst ▸ hx.2.2⟩
    simp [hns]

theorem lookupSlot_isSome_updateSlotStatus (db : DB) (c d t : String) (b : Bool)
    (c' d' t' : String) :
    (lookupSlot (updateSlotStatus db c d t b).availability c' d' t').isSome =
      (lookupSlot db.availability c' d' t').isSome := by
  rw [lookupSlot_updateSlotStatus]
  cases lookupSlot db.availability c' d' t' <;> simp

theorem findAppointment_updateSlotStatus (db : DB) (c d t : String) (b : Bool) (id : Nat) :
    findAppointment (updateSlotStatus db c d t b) id = findAppointment db id := by
  unfold findAppointment
  rw [updateSlotStatus_appointments]

theorem findAppointment_createNotification (db : DB) (u m : String) (id : Nat) :
    findAppointment (createNotification db u m) id = findAppointment db id := rfl

theorem findAppointment_updateRow_twice (db : DB) (id : Nat)
    {f g : Appointment → Appointment}
    (appt : Appointment) (h : findAppointment db id = some appt)
    (hf : ∀ a, (f a).id = a.id) (hg : ∀ a, (g a).id = a.id) :
    findAppointment (updateAppointmentRow (updateAppointmentRow db id f) id g) id =
      some (g (f appt)) :=
  findAppointment_updateRow_self _ id (f appt)
    (findAppointment_updateRow_self db id appt h hf) hg

/-! ### Concrete fixtures used by counterexamples and witnesses -/

/-- A concrete appointment row used as a base for test states (field values
follow the seed data in `src/database_schema.sql`). -/
def baseAppt : Appointment :=
  { id := 1, studentId := "s1", studentIdNumber := "02000385842",
    studentName := "Ashly", sect := "MAWD-202",
    parentPhoneNumber := "0917-123-4567", hasConsent := true,
    counselorId := "c1", counselorName := "Ms. A",
    date := "2025-12-08", time := "09:00", reason := "Academic Stress",
    description := "", status := .PENDING, createdAt := "2025-12-01",
    isAtGate := false, transferRequestToId := none, transferRequestToName := none,
    transferCounselorAccepted := none, transferStudentAccepted := none,
    rescheduleProposedDate := none, rescheduleProposedTime := none }

/-- A concrete ledger: counselor `c1` and `c2` each published slots on
2025-12-08; `c1`'s 09:00 is booked (by `baseAppt`). -/
def ledger1 : List AvailRow :=
  [ { counselorId := "c1", date := "2025-12-08", slots :=
        [ { id := "2025-12-08-09:00", time := "09:00", isBooked := true },
          { id := "2025-12-08-10:00", time := "10:00", isBooked := false } ] },
    { counselorId := "c2", date := "2025-12-08", slots :=
        [ { id := "2025-12-08-09:00", time := "09:00", isBooked := false },
          { id := "2025-12-08-09:30", time := "09:30", isBooked := true } ] },
    { counselorId := "c1", date := "2025-12-09", slots :=
        [ { id := "2025-12-09-14:00", time := "14:00", isBooked := false } ] } ]

/-- A state in which the transfer of `baseAppt` to `c2` is underway and the
receiving counselor has already accepted, while the student has not yet. -/
def transferPendingDB : DB :=
  { appointments := [ { baseAppt with
        transferRequestToId := some "c2", transferRequestToName := some "Ms. B",
        transferCounselorAccepted := some true, transferStudentAccepted := some false } ],
    availability := ledger1, notifications := [], nextId := 2 }

/-- C1 counterexample: with the receiving counselor's acceptance already
recorded, the student's `studentRespondToTransfer(…, accept = true)` is the
second acceptance of the pair, yet nothing finalizes: both acceptance flags
are now true but the appointment still belongs to `c1`, its status is still
`PENDING`, the transfer sub-state is still present, the old slot is still
booked and the target slot is still free. -/
theorem studentRespondToTransfer_second_acceptance_not_finalized :
    ((findAppointment (SupabaseStore.studentRespondToTransfer transferPendingDB 1 true).2 1).map
      (fun a => (a.transferCounselorAccepted, a.transferStudentAccepted,
                 a.counselorId, a.status, a.transferRequestToId)) =
      some (some true, some true, "c1", .PENDING, some "c2")) ∧
    isBooked (SupabaseStore.studentRespondToTransfer transferPendingDB 1 true).2.availability
      "c1" "2025-12-08" "09:00" = true ∧
    isBooked (SupabaseStore.studentRespondToTransfer transferPendingDB 1 true).2.availability
      "c2" "2025-12-08" "09:00" = false := by
  refine ⟨rfl, rfl, rfl⟩

/-- C1 (amended): the finalize step exists only inside `respondToTransfer`.
When the receiving counselor responds with accept and the student's
acceptance is already recorded on the row, the transfer finalizes: the slot
under the original counselor is freed, the same `(date, time)` slot under
the receiving counselor is booked, `counselorId`/`counselorName` are
rewritten, the transfer sub-state is fully cleared and status becomes
`CONFIRMED`.  (`studentRespondToTransfer` never finalizes — see the
counterexample.) -/
theorem respondToTransfer_finalizes_with_prior_student_acceptance
    (db : DB) (id : Nat) (appt : Appointment) (rcvId rcvName : String)
    (hfind : findAppointment db id = some appt)
    (hstu : appt.transferStudentAccepted = some true)
    (hneq : rcvId ≠ appt.counselorId)
    (hslot : (lookupSlot db.availability rcvId appt.date appt.time).isSome = true) :
    (SupabaseStore.respondToTransfer db id true rcvId rcvName).1 = true ∧
    findAppointment (SupabaseStore.respondToTransfer db id true rcvId rcvName).2 id =
      some { appt with
        counselorId := rcvId, counselorName := rcvName,
        transferRequestToId := none, transferRequestToName := none,
        transferCounselorAccepted := none, transferStudentAccepted := none,
        status := .CONFIRMED } ∧
    isBooked (SupabaseStore.respondToTransfer db id true rcvId rcvName).2.availability
      appt.counselorId appt.date appt.time = false ∧
    isBooked (SupabaseStore.respondToTransfer db id true rcvId rcvName).2.availability
      rcvId appt.date appt.time = true := by
  unfold SupabaseStore.respondToTransfer
  rw [hfind]
  simp only [hstu, beq_self_eq_true, eq_self_iff_true, if_true]
  refine ⟨trivial, ?_, ?_, ?_⟩
  · have h1 : findAppointment (updateAppointmentRow db id
        (fun a => { a with transferCounselorAccepted := some true })) id =
        some { appt with transferCounselorAccepted := some true } :=
      findAppointment_updateRow_self db id appt hfind (fun a => rfl)
    have h2 : findAppointment (updateSlotStatus (updateSlotStatus (updateAppointmentRow db id
        (fun a => { a with transferCounselorAccepted := some true }))
        appt.counselorId appt.date appt.time false) rcvId appt.date appt.time true) id =
        some { appt with transferCounselorAccepted := some true } := by
      rw [findAppointment_updateSlotStatus, findAppointment_updateSlotStatus]
      exact h1
    apply findAppointment_updateRow_self _ id _ h2
    intro a
    rfl
  · simp only [updateAppointmentRow_availability]
    rw [isBooked_updateSlotStatus_other]
    · rw [isBooked_updateSlotStatus_free]
    · intro hx
      exact hneq hx.1.symm
  · simp only [updateAppointmentRow_availability]
    rw [isBooked_updateSlotStatus_book]
    rw [lookupSlot_isSome_updateSlotStatus]
    simp only [updateAppointmentRow_availability]
    exact hslot

/-- Closed witness instantiating `respondToTransfer_finalizes_with_prior_student_acceptance`
on a concrete state in which the student has already accepted. -/
theorem respondToTransfer_finalizes_witness :
    (SupabaseStore.respondToTransfer
      { appointments := [ { baseAppt with
            transferRequestToId := some "c2", transferRequestToName := some "Ms. B",
            transferCounselorAccepted := some false, transferStudentAccepted := some true } ],
        availability := ledger1, notifications := [], nextId := 2 } 1 true "c2" "Ms. B").1 = true := by
  have h := respondToTransfer_finalizes_with_prior_student_acceptance
    { appointments := [ { baseAppt with
          transferRequestToId := some "c2", transferRequestToName := some "Ms. B",
          transferCounselorAccepted := some false, transferStudentAccepted := some true } ],
      availability := ledger1, notifications := [], nextId := 2 } 1
    { baseAppt with
        transferRequestToId := some "c2", transferRequestToName := some "Ms. B",
        transferCounselorAccepted := some false, transferStudentAccepted := some true }
    "c2" "Ms. B" rfl rfl (by decide) rfl
  exact h.1

/-- Reduction of `SupabaseStore.updateAppointmentStatus` at status
`ACCEPTED`: the row is found, no slot is touched, the row is rewritten to
status `ACCEPTED` with the gate flag cleared, and the approval notification
is sent to the student — unconditionally. -/
theorem updateAppointmentStatusA_accepted_eq (db : DB) (id : Nat) (appt : Appointment)
    (hfind : findAppointment db id = some appt) :
    SupabaseStore.updateAppointmentStatus db id .ACCEPTED =
      createNotification (updateAppointmentRow db id
        (fun a => { a with status := .ACCEPTED, isAtGate := false }))
        appt.studentId "Gate Entry: Counselor has APPROVED your entry." := by
  unfold SupabaseStore.updateAppointmentStatus
  rw [hfind]
  exact rfl

/-- A state whose only appointment is scheduled for 2099-01-01 09:00 — far
more than 15 minutes in the future — with the student waiting at the
gate. -/
def earlyGateDB : DB :=
  { appointments := [ { baseAppt with
        date := "2099-01-01", time := "09:00", status := .CONFIRMED, isAtGate := true } ],
    availability := [], notifications := [], nextId := 2 }

/-- C4: the server-side gate decision has no time guard.
`updateAppointmentStatus` receives no clock and compares nothing to the
appointment's date/time: an allow (`ACCEPTED`) submitted for an appointment
that is decades away is applied in full — status rewritten, gate flag
cleared, student notified — instead of being rejected as too early.  The
15-minute window exists only client-side (`VerificationModal` disables the
button). -/
theorem gate_allow_applied_despite_early_submission :
    ((findAppointment (SupabaseStore.updateAppointmentStatus earlyGateDB 1 .ACCEPTED) 1).map
        (fun a => (a.status, a.isAtGate)) = some (.ACCEPTED, false)) ∧
    (SupabaseStore.updateAppointmentStatus earlyGateDB 1 .ACCEPTED).notifications =
      [ { userId := "s1", message := "Gate Entry: Counselor has APPROVED your entry.",
          isRead := false } ] := by
  exact ⟨rfl, rfl⟩

/-- A state in which counselor `c1` holds a `CONFIRMED` 09:00 appointment
(id 1) and counselor `c2` holds a `CONFIRMED` 09:30 appointment (id 2) on
the same date. -/
def conflictDB : DB :=
  { appointments := [
      { baseAppt with status := .CONFIRMED },
      { baseAppt with
        id := 2, studentId := "s2", counselorId := "c2",
        counselorName := "Ms. B", time := "09:30", status := .CONFIRMED } ],
    availability := ledger1, notifications := [], nextId := 3 }

/-- C5: `initiateTransfer` runs no interval check.  The pure checker
`hasIntervalConflict` does flag 09:00 against an existing 09:30 (30 < 80
minutes), but `initiateTransfer` never calls it: transferring the
`CONFIRMED` 09:00 appointment to counselor `c2`, who holds a `CONFIRMED`
09:30 the same date, succeeds and installs the transfer sub-state. -/
theorem initiateTransfer_succeeds_despite_interval_conflict :
    hasIntervalConflict "09:00" ["09:30"] = true ∧
    (SupabaseStore.initiateTransfer conflictDB 1 "c2" "Ms. B").1.success = true ∧
    ((findAppointment (SupabaseStore.initiateTransfer conflictDB 1 "c2" "Ms. B").2 1).map
        (fun a => (a.transferRequestToId, a.transferCounselorAccepted,
                   a.transferStudentAccepted)) =
      some (some "c2", some false, some false)) := by
  exact ⟨rfl, rfl, rfl⟩

/-- A state with a single `CONFIRMED` appointment, from which the gate
protocol can be exercised. -/
def confirmedDB : DB :=
  { appointments := [ { baseAppt with status := .CONFIRMED } ],
    availability := ledger1, notifications := [], nextId := 2 }

/-- C7 counterexample: a reachable state whose appointment status is
`ACCEPTED` — not one of the four claimed values.  Running the gate protocol
(`requestGateVerification`, then the counselor's allow through
`updateAppointmentStatus`) stores the gate decision in the status field
itself. -/
theorem gate_decision_stored_as_extra_status_value :
    ((findAppointment (SupabaseStore.updateAppointmentStatus
        (SupabaseStore.requestGateVerification confirmedDB 1).2 1 .ACCEPTED) 1).map
      (fun a => a.status) = some .ACCEPTED) ∧
    (AppointmentStatus.ACCEPTED ≠ .PENDING ∧ AppointmentStatus.ACCEPTED ≠ .CONFIRMED ∧
     AppointmentStatus.ACCEPTED ≠ .CANCELLED ∧ AppointmentStatus.ACCEPTED ≠ .COMPLETED) := by
  refine ⟨rfl, by decide⟩

/-- C7 (amended): the status enum of `src/types.ts` carries the gate
decisions `ACCEPTED`/`DENIED` as additional status values.  Only the
"waiting at gate" flag is orthogonal sub-state (`isAtGate`): deciding a
gate request clears that flag but records the decision itself by rewriting
the status axis. -/
theorem gate_decision_rewrites_status_axis (db : DB) (id : Nat) (appt : Appointment)
    (hfind : findAppointment db id = some appt) :
    findAppointment (SupabaseStore.updateAppointmentStatus db id .ACCEPTED) id =
      some { appt with status := .ACCEPTED, isAtGate := false } := by
  rw [updateAppointmentStatusA_accepted_eq db id appt hfind, findAppointment_createNotification]
  exact findAppointment_updateRow_self db id appt hfind (fun a => rfl)

/-- Closed witness instantiating `gate_decision_rewrites_status_axis` on a
concrete state. -/
theorem gate_decision_rewrites_status_axis_witness :
    findAppointment (SupabaseStore.updateAppointmentStatus confirmedDB 1 .ACCEPTED) 1 =
      some { baseAppt with status := .ACCEPTED, isAtGate := false } :=
  gate_decision_rewrites_status_axis confirmedDB 1 { baseAppt with status := .CONFIRMED } rfl

/-- A state whose gate request has already been resolved: the first allow
rewrote the status to `ACCEPTED`, cleared the gate flag and notified the
student. -/
def resolvedGateDB : DB :=
  { appointments := [ { baseAppt with status := .ACCEPTED, isAtGate := false } ],
    availability := ledger1,
    notifications := [ { userId := "s1", message := "Gate Entry: Counselor has APPROVED your entry.", isRead := false } ],
    nextId := 2 }

/-- C8 counterexample: deciding an already-resolved gate request a second
time is not a no-op and raises no "already resolved" error — it appends a
second, identical gate-decision notification for the student. -/
theorem second_gate_decision_duplicates_notification :
    (SupabaseStore.updateAppointmentStatus resolvedGateDB 1 .ACCEPTED).notifications =
      [ { userId := "s1", message := "Gate Entry: Counselor has APPROVED your entry.",
          isRead := false },
        { userId := "s1", message := "Gate Entry: Counselor has APPROVED your entry.",
          isRead := false } ] := rfl

/-- A resolved row is a fixed point of the gate-allow rewrite. -/
theorem resolved_row_fixed (a : Appointment)
    (h1 : a.status = .ACCEPTED) (h2 : a.isAtGate = false) :
    ({ a with status := .ACCEPTED, isAtGate := false } : Appointment) = a := by
  cases a
  simp_all

/-- C8 (amended): a second `decide` call on a resolved gate request leaves
every appointment row and the ledger unchanged (the rewrite is a fixed
point), but it is not a no-op: it re-fires the gate-decision notification,
appending a duplicate for the student. -/
theorem second_gate_decision_only_refires_notification (db : DB) (idv : Nat)
    (appt : Appointment)
    (hfind : findAppointment db idv = some appt)
    (hres : ∀ a ∈ db.appointments, a.id = idv → a.status = .ACCEPTED ∧ a.isAtGate = false) :
    (SupabaseStore.updateAppointmentStatus db idv .ACCEPTED).appointments = db.appointments ∧
    (SupabaseStore.updateAppointmentStatus db idv .ACCEPTED).availability = db.availability ∧
    (SupabaseStore.updateAppointmentStatus db idv .ACCEPTED).notifications =
      db.notifications ++ [ { userId := appt.studentId, message := "Gate Entry: Counselor has APPROVED your entry.", isRead := false } ] := by
  rw [updateAppointmentStatusA_accepted_eq db idv appt hfind]
  refine ⟨?_, rfl, rfl⟩
  rw [createNotification_appointments]
  show db.appointments.map (fun a => if a.id == idv
    then { a with status := .ACCEPTED, isAtGate := false } else a) = db.appointments
  have hcong : ∀ a ∈ db.appointments,
      (if a.id == idv then ({ a with status := .ACCEPTED, isAtGate := false } : Appointment)
        else a) = a := by
    intro a ha
    by_cases hid : (a.id == idv) = true
    · rw [if_pos hid]
      rw [beq_iff_eq] at hid
      obtain ⟨h1, h2⟩ := hres a ha hid
      exact resolved_row_fixed a h1 h2
    · rw [if_neg hid]
  calc db.appointments.map (fun a => if a.id == idv
        then { a with status := .ACCEPTED, isAtGate := false } else a)
      = db.appointments.map (fun a => a) := List.map_congr_left hcong
    _ = db.appointments := List.map_id' db.appointments

/-- Closed witness instantiating `second_gate_decision_only_refires_notification`
on a concrete resolved state. -/
theorem second_gate_decision_refires_witness :
    (SupabaseStore.updateAppointmentStatus resolvedGateDB 1 .ACCEPTED).appointments =
      resolvedGateDB.appointments ∧
    (SupabaseStore.updateAppointmentStatus resolvedGateDB 1 .ACCEPTED).availability =
      resolvedGateDB.availability ∧
    (SupabaseStore.updateAppointmentStatus resolvedGateDB 1 .ACCEPTED).notifications =
      resolvedGateDB.notifications ++ [ { userId := "s1", message := "Gate Entry: Counselor has APPROVED your entry.", isRead := false } ] :=
  second_gate_decision_only_refires_notification resolvedGateDB 1
    { baseAppt with status := .ACCEPTED, isAtGate := false } rfl
    (by intro a ha hid
        simp only [resolvedGateDB, List.mem_singleton] at ha
        subst ha
        exact ⟨rfl, rfl⟩)

/-- A state in which student `s1` already holds a `PENDING` appointment on
2025-12-08 at 09:00 with counselor `c1`. -/
def dayDB : DB :=
  { appointments := [ baseAppt ],
    availability := ledger1, notifications := [], nextId := 2 }

/-- The same student booking the same date at a different time (09:30) with
a different counselor (`c2`). -/
def sameDayAttempt : Appointment :=
  { baseAppt with time := "09:30", counselorId := "c2", counselorName := "Ms. B" }

/-- C2 counterexample: the daily-limit policy is not enforced.  Student
`s1` holds a `PENDING` appointment on 2025-12-08 09:00, yet `saveAppointment`
for the same student on the same date at 09:30 with another counselor
succeeds — a row is inserted, the target slot is booked and a notification
is created, instead of failing with no side effects. -/
theorem saveAppointment_same_day_different_time_not_blocked :
    (StorageService.saveAppointment dayDB sameDayAttempt).1.isSome = true ∧
    (StorageService.saveAppointment dayDB sameDayAttempt).2.appointments.length = 2 ∧
    isBooked (StorageService.saveAppointment dayDB sameDayAttempt).2.availability
      "c2" "2025-12-08" "09:30" = true ∧
    (StorageService.saveAppointment dayDB sameDayAttempt).2.notifications.length = 1 := by
  exact ⟨rfl, rfl, rfl, rfl⟩

/-- C2 (amended): `saveAppointment` checks only the exact slot: it fails
(returns `null`) with no side effects precisely when the requesting student
already holds a `PENDING`/`CONFIRMED` appointment at the very same
`(date, time)`; otherwise — in particular for another time on the same
date — it inserts the row (one appointment added) and returns it. -/
theorem saveAppointment_blocks_only_exact_slot (db : DB) (appointment : Appointment) :
    (db.appointments.any (StorageService.exactSlotConflict appointment) = true →
      StorageService.saveAppointment db appointment = (none, db)) ∧
    (db.appointments.any (StorageService.exactSlotConflict appointment) = false →
      (StorageService.saveAppointment db appointment).1.isSome = true ∧
      (StorageService.saveAppointment db appointment).2.appointments.length =
        db.appointments.length + 1) := by
  constructor
  · intro hc
    rw [List.any_eq_true] at hc
    obtain ⟨x, hx, hpx⟩ := hc
    have hlen : 0 < (db.appointments.filter (StorageService.exactSlotConflict appointment)).length :=
      List.length_pos_of_mem (List.mem_filter.2 ⟨hx, hpx⟩)
    unfold StorageService.saveAppointment
    rw [if_pos hlen]
  · intro hc
    have hnil : db.appointments.filter (StorageService.exactSlotConflict appointment) = [] := by
      rw [List.filter_eq_nil_iff]
      intro x hx
      have := List.any_eq_false.1 (by rw [← hc]) x hx
      simpa using this
    have hlen : ¬ 0 < (db.appointments.filter (StorageService.exactSlotConflict appointment)).length := by
      rw [hnil]
      simp
    unfold StorageService.saveAppointment
    rw [if_neg hlen]
    refine ⟨rfl, ?_⟩
    rw [createNotification_appointments, updateSlotStatus_appointments]
    simp [List.length_append]

/-- Closed witness instantiating both directions of
`saveAppointment_blocks_only_exact_slot`: re-booking the exact same
`(student, date, time)` fails with no state change, and `sameDayAttempt`
(different time) passes the check. -/
theorem saveAppointment_blocks_only_exact_slot_witness :
    StorageService.saveAppointment dayDB baseAppt = (none, dayDB) ∧
    (StorageService.saveAppointment dayDB sameDayAttempt).1.isSome = true :=
  ⟨(saveAppointment_blocks_only_exact_slot dayDB baseAppt).1 rfl,
   ((saveAppointment_blocks_only_exact_slot dayDB sameDayAttempt).2 rfl).1⟩

/-- C3: declining a reschedule proposal through
`studentRespondToReschedule(…, accept = false)` cancels the appointment:
status becomes `CANCELLED`, the original `(counselorId, date, time)` slot is
freed in the ledger, both proposal fields are cleared, and the counselor is
notified of the decline. -/
theorem studentRespondToReschedule_decline_cancels (db : DB) (idv : Nat)
    (appt : Appointment)
    (hfind : findAppointment db idv = some appt)
    (hpd : appt.rescheduleProposedDate.isSome = true)
    (hpt : appt.rescheduleProposedTime.isSome = true) :
    (StorageService.studentRespondToReschedule db idv false).1 = true ∧
    findAppointment (StorageService.studentRespondToReschedule db idv false).2 idv =
      some { appt with
        status := .CANCELLED,
        rescheduleProposedDate := none, rescheduleProposedTime := none } ∧
    isBooked (StorageService.studentRespondToReschedule db idv false).2.availability
      appt.counselorId appt.date appt.time = false ∧
    (StorageService.studentRespondToReschedule db idv false).2.notifications =
      db.notifications ++ [ { userId := appt.counselorId, message := "Student " ++ appt.studentName ++ " declined. Cancelled.", isRead := false } ] := by
  unfold StorageService.studentRespondToReschedule
  rw [hfind]
  simp only [Bool.false_eq_true, if_false]
  refine ⟨trivial, ?_, ?_, ?_⟩
  · rw [findAppointment_createNotification]
    have h1 : findAppointment (updateSlotStatus db appt.counselorId appt.date appt.time false)
        idv = some appt := by
      rw [findAppointment_updateSlotStatus]
      exact hfind
    apply findAppointment_updateRow_self _ idv _ h1
    intro a
    rfl
  · simp only [createNotification_availability, updateAppointmentRow_availability]
    exact isBooked_updateSlotStatus_free db appt.counselorId appt.date appt.time
  · show (updateAppointmentRow (updateSlotStatus db appt.counselorId appt.date appt.time false)
        idv _).notifications ++ _ = _
    rw [updateAppointmentRow_notifications, updateSlotStatus_notifications]

/-- Closed witness instantiating `studentRespondToReschedule_decline_cancels`
on a concrete state with an active proposal for 2025-12-09 14:00. -/
theorem studentRespondToReschedule_decline_witness :
    (StorageService.studentRespondToReschedule
      { appointments := [ { baseAppt with
            status := .CONFIRMED,
            rescheduleProposedDate := some "2025-12-09",
            rescheduleProposedTime := some "14:00" } ],
        availability := ledger1, notifications := [], nextId := 2 } 1 false).1 = true :=
  (studentRespondToReschedule_decline_cancels
    { appointments := [ { baseAppt with
          status := .CONFIRMED,
          rescheduleProposedDate := some "2025-12-09",
          rescheduleProposedTime := some "14:00" } ],
      availability := ledger1, notifications := [], nextId := 2 } 1
    { baseAppt with
      status := .CONFIRMED,
      rescheduleProposedDate := some "2025-12-09",
      rescheduleProposedTime := some "14:00" }
    rfl rfl rfl).1

/-- C6: accepting a reschedule proposal through
`studentRespondToReschedule(…, accept = true)` frees the old `(date, time)`
slot, books the proposed slot under the same counselor (the proposed slot
exists in the ledger and differs from the old one), copies the proposed
date/time into the live fields, clears both proposal fields, and sets
status to `CONFIRMED`. -/
theorem studentRespondToReschedule_accept_moves_slot (db : DB) (idv : Nat)
    (appt : Appointment) (pd pt : String)
    (hfind : findAppointment db idv = some appt)
    (hpd : appt.rescheduleProposedDate = some pd)
    (hpt : appt.rescheduleProposedTime = some pt)
    (hslot : (lookupSlot db.availability appt.counselorId pd pt).isSome = true)
    (hdiff : ¬(pd = appt.date ∧ pt = appt.time)) :
    (StorageService.studentRespondToReschedule db idv true).1 = true ∧
    findAppointment (StorageService.studentRespondToReschedule db idv true).2 idv =
      some { appt with
        date := pd, time := pt,
        rescheduleProposedDate := none, rescheduleProposedTime := none,
        status := .CONFIRMED } ∧
    isBooked (StorageService.studentRespondToReschedule db idv true).2.availability
      appt.counselorId appt.date appt.time = false ∧
    isBooked (StorageService.studentRespondToReschedule db idv true).2.availability
      appt.counselorId pd pt = true := by
  unfold StorageService.studentRespondToReschedule
  rw [hfind]
  simp only [hpd, hpt, if_true, updateSlotStatusOpt, Option.getD_some]
  refine ⟨trivial, ?_, ?_, ?_⟩
  · rw [findAppointment_createNotification]
    have h1 : findAppointment (updateSlotStatus
        (updateSlotStatus db appt.counselorId appt.date appt.time false)
        appt.counselorId pd pt true) idv = some appt := by
      rw [findAppointment_updateSlotStatus, findAppointment_updateSlotStatus]
      exact hfind
    apply findAppointment_updateRow_self _ idv _ h1
    intro a
    rfl
  · simp only [createNotification_availability, updateAppointmentRow_availability]
    rw [isBooked_updateSlotStatus_other]
    · exact isBooked_updateSlotStatus_free db appt.counselorId appt.date appt.time
    · intro hx
      exact hdiff ⟨hx.2.1.symm, hx.2.2.symm⟩
  · simp only [createNotification_availability, updateAppointmentRow_availability]
    rw [isBooked_updateSlotStatus_book]
    rw [lookupSlot_isSome_updateSlotStatus]
    exact hslot

/-- Closed witness instantiating `studentRespondToReschedule_accept_moves_slot`:
the §8 scenario — proposal 2025-12-09 14:00 accepted, final record has the
proposed date/time, status `CONFIRMED`, old slot freed, new slot booked. -/
theorem studentRespondToReschedule_accept_witness :
    (StorageService.studentRespondToReschedule
      { appointments := [ { baseAppt with
            status := .CONFIRMED,
            rescheduleProposedDate := some "2025-12-09",
            rescheduleProposedTime := some "14:00" } ],
        availability := ledger1, notifications := [], nextId := 2 } 1 true).1 = true :=
  (studentRespondToReschedule_accept_moves_slot
    { appointments := [ { baseAppt with
          status := .CONFIRMED,
          rescheduleProposedDate := some "2025-12-09",
          rescheduleProposedTime := some "14:00" } ],
      availability := ledger1, notifications := [], nextId := 2 } 1
    { baseAppt with
      status := .CONFIRMED,
      rescheduleProposedDate := some "2025-12-09",
      rescheduleProposedTime := some "14:00" }
    "2025-12-09" "14:00" rfl rfl rfl rfl (by decide)).1

theorem find?_append_fresh (l : List Appointment) (x : Appointment) (idv : Nat)
    (hx : x.id = idv) (h : ∀ a ∈ l, a.id ≠ idv) :
    (l ++ [x]).find? (fun a => a.id == idv) = some x := by
  rw [List.find?_append]
  have hnone : l.find? (fun a => a.id == idv) = none := by
    rw [List.find?_eq_none]
    intro a ha
    simp [h a ha]
  rw [hnone]
  simp [hx]

/-- C9: booking a slot through `saveAppointment` and then cancelling the
returned appointment through `updateAppointmentStatus(…, CANCELLED)` leaves
the ledger slot `(counselorId, date, time)` free. -/
theorem book_then_cancel_frees_slot (db : DB) (appointment saved : Appointment)
    (hfresh : ∀ a ∈ db.appointments, a.id ≠ db.nextId)
    (hsave : (StorageService.saveAppointment db appointment).1 = some saved) :
    isBooked (StorageService.updateAppointmentStatus
        (StorageService.saveAppointment db appointment).2 saved.id .CANCELLED).availability
      appointment.counselorId appointment.date appointment.time = false := by
  by_cases hc : 0 < (db.appointments.filter (StorageService.exactSlotConflict appointment)).length
  · unfold StorageService.saveAppointment at hsave
    rw [if_pos hc] at hsave
    simp at hsave
  · unfold StorageService.saveAppointment at hsave ⊢
    rw [if_neg hc] at hsave ⊢
    dsimp only at hsave ⊢
    have hs := Option.some.inj hsave
    subst hs
    dsimp only
    have hfind1 : findAppointment
        (createNotification (updateSlotStatus
          { db with
            appointments := db.appointments ++ [ { appointment with
              id := db.nextId, isAtGate := false,
              transferRequestToId := none, transferRequestToName := none,
              transferCounselorAccepted := some false, transferStudentAccepted := some false,
              rescheduleProposedDate := none, rescheduleProposedTime := none } ],
            nextId := db.nextId + 1 }
          appointment.counselorId appointment.date appointment.time true)
          appointment.counselorId
          ("New Appointment Request: " ++ appointment.studentName ++ " for " ++
            appointment.date ++ " at " ++ appointment.time))
        db.nextId =
        some { appointment with
          id := db.nextId, isAtGate := false,
          transferRequestToId := none, transferRequestToName := none,
          transferCounselorAccepted := some false, transferStudentAccepted := some false,
          rescheduleProposedDate := none, rescheduleProposedTime := none } := by
      rw [findAppointment_createNotification, findAppointment_updateSlotStatus]
      unfold findAppointment
      dsimp only
      apply find?_append_fresh
      · rfl
      · intro a ha
        exact hfresh a ha
    unfold StorageService.updateAppointmentStatus
    rw [hfind1]
    simp only [beq_self_eq_true, eq_self_iff_true, if_true]
    simp only [StorageService.statusMessage, createNotification_availability,
      updateAppointmentRow_availability]
    exact isBooked_updateSlotStatus_free _ _ _ _

/-- A state with no appointments yet (fresh ledger from `ledger1`). -/
def freshDB : DB :=
  { appointments := [], availability := ledger1, notifications := [], nextId := 1 }

/-- Closed witness instantiating `book_then_cancel_frees_slot`: book
`c1`/2025-12-08/09:00 from an empty store, cancel the returned row, and
the slot reads free. -/
theorem book_then_cancel_frees_slot_witness :
    isBooked (StorageService.updateAppointmentStatus
        (StorageService.saveAppointment freshDB baseAppt).2
        ({ baseAppt with
          transferCounselorAccepted := some false,
          transferStudentAccepted := some false } : Appointment).id
        .CANCELLED).availability
      "c1" "2025-12-08" "09:00" = false :=
  book_then_cancel_frees_slot freshDB baseAppt
    { baseAppt with
      transferCounselorAccepted := some false,
      transferStudentAccepted := some false }
    (by intro a ha; simp [freshDB] at ha) rfl

theorem updateSlotStatus_nextId (db : DB) (c d t : String) (b : Bool) :
    (updateSlotStatus db c d t b).nextId = db.nextId := by
  unfold updateSlotStatus
  cases h : db.availability.find? (fun r => r.counselorId == c && r.date == d) <;> simp

theorem DB.ext_of_fields {db1 db2 : DB}
    (h1 : db1.appointments = db2.appointments) (h2 : db1.availability = db2.availability)
    (h3 : db1.notifications = db2.notifications) (h4 : db1.nextId = db2.nextId) :
    db1 = db2 := by
  cases db1
  cases db2
  simp_all

/-- Pointwise form of the slot rewrite: flip `isBooked` on a slot whose
time matches, leave any other slot untouched. -/
def setSlotBooked (t : String) (b : Bool) (s : TimeSlot) : TimeSlot :=
  if s.time = t then { s with isBooked := b } else s

/-- Pointwise form of the entry rewrite: rewrite the slots of an entry at
the `(counselor, date)` key, leave any other entry untouched. -/
def setEntrySlots (c d t : String) (b : Bool) (r : AvailRow) : AvailRow :=
  if r.counselorId = c ∧ r.date = d
  then { r with slots := r.slots.map (setSlotBooked t b) }
  else r

/-- C10: frame property of `updateSlotStatus`.  With the `(counselor_id,
date)` key unique in the `availability` table (its schema constraint), the
call rewrites only the `isBooked` flag of the slots whose `time` matches,
inside the matching entry: every entry keeps its key and position, every
slot keeps its `id`, `time` and position, slots with a different time are
untouched, the other tables are untouched, and a missing entry — or an
entry without a slot of that time — makes the call a silent no-op. -/
theorem updateSlotStatus_frame (db : DB) (c d t : String) (b : Bool)
    (huniq : ∀ r1 ∈ db.availability, ∀ r2 ∈ db.availability,
      r1.counselorId = c → r1.date = d → r2.counselorId = c → r2.date = d → r1 = r2) :
    (updateSlotStatus db c d t b).appointments = db.appointments ∧
    (updateSlotStatus db c d t b).notifications = db.notifications ∧
    (updateSlotStatus db c d t b).nextId = db.nextId ∧
    (db.availability.find? (fun r => r.counselorId == c && r.date == d) = none →
      updateSlotStatus db c d t b = db) ∧
    (updateSlotStatus db c d t b).availability =
      db.availability.map (setEntrySlots c d t b) ∧
    ((∀ r ∈ db.availability, r.counselorId = c → r.date = d →
        ∀ s ∈ r.slots, ¬s.time = t) →
      updateSlotStatus db c d t b = db) := by
  have hmap : (updateSlotStatus db c d t b).availability =
      db.availability.map (setEntrySlots c d t b) := by
    unfold updateSlotStatus
    cases hfind : db.availability.find? (fun r => r.counselorId == c && r.date == d) with
    | none =>
      dsimp only
      symm
      have hid : ∀ r ∈ db.availability, setEntrySlots c d t b r = r := by
        intro r hr
        have hkey := List.find?_eq_none.1 hfind r hr
        unfold setEntrySlots
        by_cases hcd : r.counselorId = c ∧ r.date = d
        · exact absurd (by simp [hcd.1, hcd.2]) hkey
        · exact if_neg hcd
      exact (List.map_congr_left hid).trans (List.map_id' db.availability)
    | some existing =>
      dsimp only
      have hmem := @List.mem_of_find?_eq_some _ _ _ _ hfind
      have hkeyEx := @List.find?_some _ _ _ _ hfind
      simp only [] at hkeyEx
      rw [Bool.and_eq_true, beq_iff_eq, beq_iff_eq] at hkeyEx
      apply List.map_congr_left
      intro r hr
      unfold setEntrySlots
      by_cases hkey : (r.counselorId == c && r.date == d) = true
      · have hcd : r.counselorId = c ∧ r.date = d := by
          rwa [Bool.and_eq_true, beq_iff_eq, beq_iff_eq] at hkey
        have hre : existing = r := huniq existing hmem r hr hkeyEx.1 hkeyEx.2 hcd.1 hcd.2
        subst hre
        rw [if_pos hkey, if_pos hcd]
        congr 1
        apply List.map_congr_left
        intro s _
        unfold setSlotBooked
        by_cases hst : (s.time == t) = true
        · rw [if_pos hst, if_pos (beq_iff_eq.1 hst)]
        · rw [if_neg hst, if_neg (fun h => hst (beq_iff_eq.2 h))]
      · have hcd : ¬(r.counselorId = c ∧ r.date = d) := by
          intro hx
          exact hkey (by simp [hx.1, hx.2])
        rw [if_neg hkey, if_neg hcd]
  refine ⟨updateSlotStatus_appointments db c d t b, updateSlotStatus_notifications db c d t b,
    updateSlotStatus_nextId db c d t b, ?_, hmap, ?_⟩
  · intro h
    unfold updateSlotStatus
    rw [h]
  · intro hno
    refine DB.ext_of_fields (updateSlotStatus_appointments db c d t b) ?_
      (updateSlotStatus_notifications db c d t b) (updateSlotStatus_nextId db c d t b)
    rw [hmap]
    have hid : ∀ r ∈ db.availability, setEntrySlots c d t b r = r := by
      intro r hr
      unfold setEntrySlots
      by_cases hcd : r.counselorId = c ∧ r.date = d
      · rw [if_pos hcd]
        have hslots : ∀ s ∈ r.slots, setSlotBooked t b s = s := by
          intro s hs
          unfold setSlotBooked
          exact if_neg (hno r hr hcd.1 hcd.2 s hs)
        rw [(List.map_congr_left hslots).trans (List.map_id' r.slots)]
      · exact if_neg hcd
    exact (List.map_congr_left hid).trans (List.map_id' db.availability)

/-- Closed witness instantiating `updateSlotStatus_frame` on the concrete
ledger `ledger1` (whose `(counselor, date)` keys are unique). -/
theorem updateSlotStatus_frame_witness :
    (updateSlotStatus freshDB "c1" "2025-12-08" "10:00" true).appointments =
      freshDB.appointments ∧
    updateSlotStatus freshDB "c3" "2025-12-08" "10:00" true = freshDB :=
  ⟨(updateSlotStatus_frame freshDB "c1" "2025-12-08" "10:00" true (by decide)).1,
   (updateSlotStatus_frame freshDB "c3" "2025-12-08" "10:00" true (by decide)).2.2.2.1 rfl⟩
